import Mathlib

/-!
Formal model of the Doctor health-diary backend.

This file embeds, in Lean, the parts of the repository that the verified
properties talk about:

* `authapp/tasks.py`  — `get_comprehensive_analysis`: the weekly analysis
  pipeline (data window, insufficient-data short circuit, external model
  call, regex-based forecast extraction, JSON parsing, fallback synthesis,
  validation to the `[3, 15]` range with the `5.5` sentinel);
* `authapp/views.py`  — `HealthRecommendationView.get` and
  `ConfirmTelegramCodeView.post`;
* `authapp/models.py` — `TelegramAuthCode.verify_code`;
* `diary/models.py`   — `Event.save`, `MealPhoto.save`;
* `diary/serializers.py` — `MealPhotoSerializer.validate_meal`.

Modelling conventions:

* Timestamps are integers counting minutes; a calendar day is 1440 minutes
  and `strftime("%Y-%m-%d")` is modelled by the day index `dayOf`
  (`strftime` is injective on days, so a chart keyed by day index is the
  same mapping as one keyed by the formatted string).  Where the Python
  code builds dictionary keys from `strftime` output, the model uses
  `dayStr` (decimal rendering of the day index) as the key string.
* Python `float` arithmetic is modelled over `ℚ`; `round(x, 1)` is
  modelled by `round1` (round half up at the second decimal; Python's
  float rounding is round-half-even over the binary representation, which
  differs only on exact halves).
* The OpenAI call is the sole source of exceptions reaching the outer
  `except` of `get_comprehensive_analysis`; it enters the model as an
  `Except String String` argument (`.error msg` = the call raised).
  `random.uniform(-0.5, 0.5)` enters as an explicit stream
  `jitter : ℕ → ℚ` consumed one value per forecast date.
* `json.loads` is modelled by `parseJson`, a parser for the JSON value
  space reachable from the extracted blocks: flat objects whose values
  are numbers, strings, booleans, `null`, or arrays (the regex groups
  carry exactly one `"}"`, their last character, so a nested object
  never parses, in Python or here).  CPython's decoder is followed
  strictly — inter-token whitespace is exactly space/tab/LF/CR, raw
  control characters inside string literals and invalid escapes are
  rejected, escape sequences are decoded, and the `NaN`/`Infinity`/
  `-Infinity` parse constants are modelled as non-finite markers that
  fail the `[3, 15]` comparisons exactly as the Python floats do.  The
  one value-level approximation: a lone surrogate escape, which CPython
  keeps as-is, parses to U+FFFD (Lean's `Char` has no surrogates).
* The diary tables behind the meal-photo invariant form a `DiaryDb`
  state: an event table keyed by row id and a photo table whose rows
  reference events by id, so that both repository write paths — photo
  creation through `MealPhoto.save`, and event updates through the
  `EventViewSet` `ModelViewSet`, whose serializer leaves `type`
  writable — are representable transitions.
* Django querysets appear as plain lists already restricted to one
  employee; `.order_by` only affects presentation order, which none of
  the verified properties depend on.
-/

/- Batteries marks the `Rat` field operations `@[irreducible]`, which
blocks kernel evaluation of concrete rational arithmetic; restore the
default reducibility for this development so that ground facts about the
model can be settled by `decide`. -/
attribute [local semireducible] Rat.add Rat.mul Rat.inv Rat.sub

/-! ## Python value model -/

/-- A Python value as produced by `json.loads` on the extracted block.
`arr` marks a JSON array (its elements are irrelevant: arrays are never
numeric, so validation always replaces them by the sentinel); `nan` and
`inf` are the floats the decoder's default `parse_constant` yields for
the `NaN`/`Infinity`/`-Infinity` literals. -/
inductive PyVal where
  | num (q : ℚ)
  | str (s : String)
  | bool (b : Bool)
  | null
  | arr
  | nan
  | inf (neg : Bool)
deriving DecidableEq, Repr

/-- `isinstance(value, (int, float))` — note that Python `bool` is a
subclass of `int`, so booleans pass this check. -/
def pyIsNumber : PyVal → Bool
  | .num _ => true
  | .bool _ => true
  | .nan => true
  | .inf _ => true
  | _ => false

/-- The numeric value used by the comparisons `3 <= value <= 15`
(`True == 1`, `False == 0`).  The non-finite floats have no rational
value; they are mapped to sentinels outside `[3, 15]` chosen so that
every comparison the program performs on them keeps its Python truth
value: `3 <= nan` and `3 <= -inf` are false, and `inf <= 15` is false
(the guarded `round(float(value), 1)` is unreachable for all three). -/
def pyNumVal : PyVal → ℚ
  | .num q => q
  | .bool b => if b then 1 else 0
  | .nan => 0
  | .inf neg => if neg then -1 else 10 ^ 9
  | _ => 0

/-! ## Rounding and calendar arithmetic -/

/-- `round(x, 1)` (see the modelling note on rounding above). -/
def round1 (q : ℚ) : ℚ := ((10 * q + 1/2).floor : ℚ) / 10

theorem ratFloor_eq_intFloor (q : ℚ) : q.floor = ⌊q⌋ := by
  rw [Rat.floor_def', ← Rat.floor_def]

theorem round1_eq (q : ℚ) : round1 q = ((⌊10 * q + 1/2⌋ : ℤ) : ℚ) / 10 := by
  rw [round1, ratFloor_eq_intFloor]

/-- The calendar day of a timestamp (minutes since the epoch). -/
def dayOf (t : ℤ) : ℤ := ((t : ℚ) / 1440).floor

theorem dayOf_eq (t : ℤ) : dayOf t = ⌊(t : ℚ) / 1440⌋ := by
  rw [dayOf, ratFloor_eq_intFloor]

theorem dayOf_shift (t k : ℤ) : dayOf (t + 1440 * k) = dayOf t + k := by
  rw [dayOf_eq, dayOf_eq]
  have h : ((t + 1440 * k : ℤ) : ℚ) / 1440 = (t : ℚ) / 1440 + (k : ℤ) := by
    push_cast
    ring
  rw [h, Int.floor_add_int]

theorem dayOf_zero : dayOf 0 = 0 := by
  rw [dayOf_eq]
  norm_num

/-! ## Character helpers shared by the regex and JSON models -/

/-- Python's `\s` class (ASCII range) used by `re` and `str.strip`. -/
def isWs (c : Char) : Bool :=
  c == ' ' || c == '\t' || c == '\n' || c == '\r' || c == '\x0b' || c == '\x0c'

/-- Consume a literal: `some rest` iff the pattern is a leading run of the
input. -/
def expectLit : List Char → List Char → Option (List Char)
  | [], cs => some cs
  | _ :: _, [] => none
  | p :: ps, c :: cs => if p == c then expectLit ps cs else none

/-- `str.strip()` (its wider Unicode whitespace set is narrowed to the
same ASCII class as the regex `\s`; none of the verified properties
depend on exotic-whitespace edges of the narrative text). -/
def pyStrip (s : String) : String :=
  ⟨((s.data.dropWhile isWs).reverse.dropWhile isWs).reverse⟩

def replaceChars : ℕ → List Char → List Char → List Char → List Char
  | 0, cs, _, _ => cs
  | fuel + 1, cs, target, repl =>
    match expectLit target cs with
    | some rest => repl ++ replaceChars fuel rest target repl
    | none =>
      match cs with
      | [] => []
      | c :: t => c :: replaceChars fuel t target repl

/-- `str.replace(target, repl)` — every non-overlapping occurrence, left to
right.  (The Python empty-target behaviour is irrelevant here: the code
only ever replaces a nonempty regex match.) -/
def pyReplace (s target repl : String) : String :=
  if target.data.isEmpty then s
  else ⟨replaceChars (s.data.length + 1) s.data target.data repl.data⟩

/-! ## The three forecast-extraction regexes (`tasks.py` lines 317–321)

The Python patterns, tried in order with `re.search` (leftmost match):

1. fenced "json" block   — three backticks, `json`, `\s*`, `(\{[^}]+\})`, `\s*`, three backticks
2. fenced generic block  — three backticks, `\s*`, `(\{[^}]+\})`, `\s*`, three backticks
3. bare date-keyed object — brace, optional quote, `\d{4}-\d{2}-\d{2}`,
   optional quote, `\s*:\s*`, `\d+\.?\d*`, then anything up to the closing brace

Each matcher is deterministic: every quantifier in these patterns is
followed by a character its own class excludes, so the greedy extent is
the only viable one and `re`'s backtracking never changes the outcome.
Matchers return `(group0, group1)` (the full match and the brace group).
-/

/-- Exactly `n` digits. -/
def takeDigitsN : ℕ → List Char → Option (List Char × List Char)
  | 0, cs => some ([], cs)
  | _ + 1, [] => none
  | n + 1, c :: t =>
    if c.isDigit then (takeDigitsN n t).map (fun p => (c :: p.1, p.2)) else none

/-- `["\']?` — optional single or double quote. -/
def quoteOpt (cs : List Char) : List Char × List Char :=
  match cs with
  | c :: t => if c == '"' || c == Char.ofNat 39 then ([c], t) else ([], cs)
  | [] => ([], [])

/-- Fenced block body shared by patterns 1 and 2: `\s*(\{[^}]+\})\s*` then
the closing fence, applied after the opening fence has been consumed.
Returns `(consumed, group1)`. -/
def matchFencedTail (cs : List Char) : Option (List Char × List Char) :=
  let ws1 := cs.takeWhile isWs
  let r1 := cs.dropWhile isWs
  match r1 with
  | '\x7b' :: r2 =>
    let inner := r2.takeWhile (fun c => !(c == '\x7d'))
    let r3 := r2.dropWhile (fun c => !(c == '\x7d'))
    if inner.isEmpty then none
    else
      match r3 with
      | '\x7d' :: r4 =>
        let ws2 := r4.takeWhile isWs
        let r5 := r4.dropWhile isWs
        match expectLit "```".data r5 with
        | some _ =>
          let g1 := '\x7b' :: (inner ++ ['\x7d'])
          some (ws1 ++ g1 ++ ws2 ++ "```".data, g1)
        | none => none
      | _ => none
  | _ => none

/-- Pattern 1 anchored at the current position. -/
def matchP1At (cs : List Char) : Option (List Char × List Char) :=
  match expectLit "```json".data cs with
  | some r0 =>
    (matchFencedTail r0).map (fun p => ("```json".data ++ p.1, p.2))
  | none => none

/-- Pattern 2 anchored at the current position. -/
def matchP2At (cs : List Char) : Option (List Char × List Char) :=
  match expectLit "```".data cs with
  | some r0 =>
    (matchFencedTail r0).map (fun p => ("```".data ++ p.1, p.2))
  | none => none

/-- Pattern 3 anchored at the current position (no capture group). -/
def matchP3At (cs : List Char) : Option (List Char) :=
  match cs with
  | '\x7b' :: r0 =>
    let (q1, r1) := quoteOpt r0
    match takeDigitsN 4 r1 with
    | none => none
    | some (d1, r2) =>
      match expectLit ['-'] r2 with
      | none => none
      | some r3 =>
        match takeDigitsN 2 r3 with
        | none => none
        | some (d2, r4) =>
          match expectLit ['-'] r4 with
          | none => none
          | some r5 =>
            match takeDigitsN 2 r5 with
            | none => none
            | some (d3, r6) =>
              let (q2, r7) := quoteOpt r6
              let ws1 := r7.takeWhile isWs
              let r8 := r7.dropWhile isWs
              match expectLit [':'] r8 with
              | none => none
              | some r9 =>
                let ws2 := r9.takeWhile isWs
                let r10 := r9.dropWhile isWs
                let num1 := r10.takeWhile Char.isDigit
                let r11 := r10.dropWhile Char.isDigit
                if num1.isEmpty then none
                else
                  let (dot, r12) :=
                    match r11 with
                    | '.' :: t => (['.'], t)
                    | _ => (([] : List Char), r11)
                  let num2 := r12.takeWhile Char.isDigit
                  let r13 := r12.dropWhile Char.isDigit
                  let tailp := r13.takeWhile (fun c => !(c == '\x7d'))
                  let r14 := r13.dropWhile (fun c => !(c == '\x7d'))
                  match r14 with
                  | '\x7d' :: _ =>
                    some ('\x7b' :: (q1 ++ d1 ++ ['-'] ++ d2 ++ ['-'] ++ d3 ++ q2
                      ++ ws1 ++ [':'] ++ ws2 ++ num1 ++ dot ++ num2 ++ tailp ++ ['\x7d']))
                  | _ => none
  | _ => none

/-- `re.search`: try the matcher at every start position, left to right. -/
def reSearch {α : Type} (f : List Char → Option α) : List Char → Option α
  | [] => f []
  | c :: t =>
    match f (c :: t) with
    | some a => some a
    | none => reSearch f t

def searchP1 (s : String) : Option (List Char × List Char) := reSearch matchP1At s.data

def searchP2 (s : String) : Option (List Char × List Char) := reSearch matchP2At s.data

def searchP3 (s : String) : Option (List Char) := reSearch matchP3At s.data

/-- A successful `re.Match`: the full matched text and, when the pattern
has a capture group, the captured brace block. -/
structure ReMatch where
  group0 : String
  group1 : Option String
deriving DecidableEq, Repr

/-- `json_str = match.group(1) if len(match.groups()) > 0 else match.group(0)`. -/
def ReMatch.jsonText (m : ReMatch) : String := m.group1.getD m.group0

/-- The pattern loop of `tasks.py` lines 323–327: the first pattern with a
match anywhere in the response wins; later patterns are not consulted. -/
def findJsonMatch (s : String) : Option ReMatch :=
  match searchP1 s with
  | some (g0, g1) => some ⟨⟨g0⟩, some ⟨g1⟩⟩
  | none =>
    match searchP2 s with
    | some (g0, g1) => some ⟨⟨g0⟩, some ⟨g1⟩⟩
    | none =>
      match searchP3 s with
      | some g0 => some ⟨⟨g0⟩, none⟩
      | none => none

/-! ## `json.loads` on the extracted block -/

def digitsToNat (ds : List Char) : ℕ :=
  ds.foldl (fun a c => 10 * a + (c.toNat - '0'.toNat)) 0

/-- JSON number: optional minus, integer part without spurious leading
zeros, optional fraction, optional exponent. -/
def parseNum (cs : List Char) : Option (ℚ × List Char) :=
  let (neg, r0) :=
    match cs with
    | '-' :: t => (true, t)
    | _ => (false, cs)
  let ds := r0.takeWhile Char.isDigit
  let r1 := r0.dropWhile Char.isDigit
  if ds.isEmpty then none
  else if 2 ≤ ds.length && ds.headD 'x' == '0' then none
  else
    let (fds, r2) :=
      match r1 with
      | '.' :: t => (t.takeWhile Char.isDigit, t.dropWhile Char.isDigit)
      | _ => (([] : List Char), r1)
    match r1 with
    | '.' :: _ =>
      if fds.isEmpty then none
      else parseNumExp neg ds fds r2
    | _ => parseNumExp neg ds fds r2
where
  parseNumExp (neg : Bool) (ds fds : List Char) (r2 : List Char) :
      Option (ℚ × List Char) :=
    let (eneg, eds, r3) :=
      match r2 with
      | 'e' :: '-' :: t => (true, t.takeWhile Char.isDigit, t.dropWhile Char.isDigit)
      | 'e' :: '+' :: t => (false, t.takeWhile Char.isDigit, t.dropWhile Char.isDigit)
      | 'e' :: t => (false, t.takeWhile Char.isDigit, t.dropWhile Char.isDigit)
      | 'E' :: '-' :: t => (true, t.takeWhile Char.isDigit, t.dropWhile Char.isDigit)
      | 'E' :: '+' :: t => (false, t.takeWhile Char.isDigit, t.dropWhile Char.isDigit)
      | 'E' :: t => (false, t.takeWhile Char.isDigit, t.dropWhile Char.isDigit)
      | _ => (false, ([] : List Char), r2)
    let hasExp :=
      match r2 with
      | 'e' :: _ => true
      | 'E' :: _ => true
      | _ => false
    if hasExp && eds.isEmpty then none
    else
      let base : ℚ :=
        (digitsToNat ds : ℚ) + (digitsToNat fds : ℚ) / (10 : ℚ) ^ fds.length
      let scaled : ℚ :=
        if hasExp then
          if eneg then base / (10 : ℚ) ^ digitsToNat eds
          else base * (10 : ℚ) ^ digitsToNat eds
        else base
      some (if neg then -scaled else scaled, r3)

/-- CPython's JSON decoder skips exactly space, tab, LF and CR between
tokens — narrower than the regex `\s` (`\x0b`/`\x0c` between tokens is
a `JSONDecodeError`). -/
def isJsonWs (c : Char) : Bool :=
  c == ' ' || c == '\t' || c == '\n' || c == '\r'

def dropJsonWs (cs : List Char) : List Char := cs.dropWhile isJsonWs

def hexDigit (c : Char) : Option ℕ :=
  if '0' ≤ c ∧ c ≤ '9' then some (c.toNat - '0'.toNat)
  else if 'a' ≤ c ∧ c ≤ 'f' then some (c.toNat - 'a'.toNat + 10)
  else if 'A' ≤ c ∧ c ≤ 'F' then some (c.toNat - 'A'.toNat + 10)
  else none

def hex4 (a b c d : Char) : Option ℕ :=
  match hexDigit a, hexDigit b, hexDigit c, hexDigit d with
  | some x, some y, some z, some w => some (4096 * x + 256 * y + 16 * z + w)
  | _, _, _, _ => none

/-- JSON string body after the opening quote, in the decoder's default
strict mode: a raw control character (code below 32) or an invalid
escape is a `JSONDecodeError`; escape sequences are decoded, surrogate
`\uXXXX` pairs are combined, and a lone surrogate — which CPython keeps
as-is but Lean's `Char` cannot carry — parses to U+FFFD, the model's
one value-level approximation inside strings. -/
def parseStringGo : ℕ → List Char → List Char → Option (String × List Char)
  | 0, _, _ => none
  | _ + 1, acc, '"' :: t => some (⟨acc.reverse⟩, t)
  | fuel + 1, acc, '\\' :: r =>
    match r with
    | '"' :: t => parseStringGo fuel ('"' :: acc) t
    | '\\' :: t => parseStringGo fuel ('\\' :: acc) t
    | '/' :: t => parseStringGo fuel ('/' :: acc) t
    | 'b' :: t => parseStringGo fuel ('\x08' :: acc) t
    | 'f' :: t => parseStringGo fuel ('\x0c' :: acc) t
    | 'n' :: t => parseStringGo fuel ('\n' :: acc) t
    | 'r' :: t => parseStringGo fuel ('\r' :: acc) t
    | 't' :: t => parseStringGo fuel ('\t' :: acc) t
    | 'u' :: h1 :: h2 :: h3 :: h4 :: t =>
      match hex4 h1 h2 h3 h4 with
      | none => none
      | some n =>
        if n < 55296 ∨ 57343 < n then parseStringGo fuel (Char.ofNat n :: acc) t
        else
          match t with
          | '\\' :: 'u' :: g1 :: g2 :: g3 :: g4 :: t2 =>
            match hex4 g1 g2 g3 g4 with
            | none => parseStringGo fuel (Char.ofNat 65533 :: acc) t
            | some m =>
              if n ≤ 56319 ∧ 56320 ≤ m ∧ m ≤ 57343 then
                parseStringGo fuel
                  (Char.ofNat (65536 + (n - 55296) * 1024 + (m - 56320)) :: acc) t2
              else parseStringGo fuel (Char.ofNat 65533 :: acc) t
          | _ => parseStringGo fuel (Char.ofNat 65533 :: acc) t
    | _ => none
  | fuel + 1, acc, c :: t =>
    if c.toNat < 32 then none else parseStringGo fuel (c :: acc) t
  | _ + 1, _, [] => none

def parseStringBody (cs : List Char) : Option (String × List Char) :=
  parseStringGo (cs.length + 1) [] cs

mutual

/-- One JSON value (fuel bounds nesting and list length). -/
def parseVal : ℕ → List Char → Option (PyVal × List Char)
  | 0, _ => none
  | fuel + 1, cs =>
    match cs with
    | '"' :: t => (parseStringBody t).map (fun p => (.str p.1, p.2))
    | 't' :: 'r' :: 'u' :: 'e' :: t => some (.bool true, t)
    | 'f' :: 'a' :: 'l' :: 's' :: 'e' :: t => some (.bool false, t)
    | 'n' :: 'u' :: 'l' :: 'l' :: t => some (.null, t)
    | 'N' :: 'a' :: 'N' :: t => some (.nan, t)
    | 'I' :: 'n' :: 'f' :: 'i' :: 'n' :: 'i' :: 't' :: 'y' :: t => some (.inf false, t)
    | '-' :: 'I' :: 'n' :: 'f' :: 'i' :: 'n' :: 'i' :: 't' :: 'y' :: t =>
      some (.inf true, t)
    | '[' :: t =>
      match dropJsonWs t with
      | ']' :: r => some (.arr, r)
      | r => (parseArrElems fuel r).map (fun rest => (.arr, rest))
    | _ => (parseNum cs).map (fun p => (.num p.1, p.2))

/-- Comma-separated values up to the closing bracket (after at least one
element is known to follow). -/
def parseArrElems : ℕ → List Char → Option (List Char)
  | 0, _ => none
  | fuel + 1, cs =>
    match parseVal fuel cs with
    | none => none
    | some (_, r) =>
      match dropJsonWs r with
      | ']' :: t => some t
      | ',' :: t => parseArrElems fuel (dropJsonWs t)
      | _ => none

end

/-- Python `dict` insertion: updating an existing key keeps its position,
a new key is appended. -/
def dictInsert (l : List (String × PyVal)) (k : String) (v : PyVal) :
    List (String × PyVal) :=
  if l.any (fun p => p.1 == k) then
    l.map (fun p => if p.1 == k then (p.1, v) else p)
  else l ++ [(k, v)]

/-- Key/value entries of the top-level object, starting just after a `,`
or the opening brace (nonempty-object case). -/
def parseEntries : ℕ → List Char → List (String × PyVal) →
    Option (List (String × PyVal) × List Char)
  | 0, _, _ => none
  | fuel + 1, cs, acc =>
    match dropJsonWs cs with
    | '"' :: t =>
      match parseStringBody t with
      | none => none
      | some (k, r1) =>
        match expectLit [':'] (dropJsonWs r1) with
        | none => none
        | some r2 =>
          match parseVal (fuel + 1) (dropJsonWs r2) with
          | none => none
          | some (v, r3) =>
            match dropJsonWs r3 with
            | ',' :: t2 => parseEntries fuel t2 (dictInsert acc k v)
            | '\x7d' :: t2 => some (dictInsert acc k v, t2)
            | _ => none
    | _ => none

/-- `json.loads` restricted to the reachable value space: a top-level
object mapping string keys to scalar/array values, with nothing but
JSON whitespace around it.  `none` models `json.JSONDecodeError`. -/
def parseJson (s : String) : Option (List (String × PyVal)) :=
  match dropJsonWs s.data with
  | '\x7b' :: t =>
    match dropJsonWs t with
    | '\x7d' :: r => if (dropJsonWs r).isEmpty then some [] else none
    | _ =>
      match parseEntries (t.length + 1) t [] with
      | none => none
      | some (obj, rest) => if (dropJsonWs rest).isEmpty then some obj else none
  | _ => none

/-- Dictionary lookup: `key in d` is `(lookupStr d key).isSome`, and
`d[key]` is the looked-up value. -/
def lookupStr (l : List (String × PyVal)) (k : String) : Option PyVal :=
  (l.find? (fun p => p.1 == k)).map (fun p => p.2)

/-! ## Data model (`diary/models.py`, one employee's records) -/

/-- `GlucoseMeasurement`: value in mmol/L, measurement timestamp. -/
structure GlucoseMeasurement where
  value : ℚ
  measured_at : ℤ
deriving DecidableEq, Repr

/-- `Event` (fields the verified properties read; the purely
presentational fields `name`, `description`, `color`, `calories`,
`carbs`, `sugars`, `steps` only flow into prompt text). -/
structure Event where
  type : String
  duration : Option ℤ
  start_time : ℤ
  end_time : Option ℤ
deriving DecidableEq, Repr

/-- `Medication` intake record. -/
structure Medication where
  taken_at : ℤ
deriving DecidableEq, Repr

/-- `StressNote`. -/
structure StressNote where
  noted_at : ℤ
deriving DecidableEq, Repr

/-! ## The comprehensive-analysis pipeline (`authapp/tasks.py`) -/

/-- `start_week = now - datetime.timedelta(days=7)`. -/
def weekAgo (now : ℤ) : ℤ := now - 7 * 1440

/-- The `measured_at__gte=start_week` queryset filter. -/
def glucoseInWindow (now : ℤ) (gs : List GlucoseMeasurement) :
    List GlucoseMeasurement :=
  gs.filter (fun g => decide (weekAgo now ≤ g.measured_at))

/-- The `start_time__gte=start_week` queryset filter. -/
def eventsInWindow (now : ℤ) (es : List Event) : List Event :=
  es.filter (fun e => decide (weekAgo now ≤ e.start_time))

/-- The `glucose_data` formatting step: day of measurement (the
`strftime("%Y-%m-%d")` key) and `float(g.value)`. -/
def glucoseData (now : ℤ) (gs : List GlucoseMeasurement) : List (ℤ × ℚ) :=
  (glucoseInWindow now gs).map (fun g => (dayOf g.measured_at, g.value))

/-- The `strftime("%Y-%m-%d")` output, as a dictionary key. -/
def dayStr (d : ℤ) : String := toString d

/-- Distinct days in order of first appearance (iteration order of the
`defaultdict` built at `tasks.py` lines 176–179). -/
def dedupGo : List ℤ → List ℤ → List ℤ
  | [], _ => []
  | a :: t, seen => if a ∈ seen then dedupGo t seen else a :: dedupGo t (a :: seen)

def dedupKeys (l : List ℤ) : List ℤ := dedupGo l []

/-- `daily_averages`: per-day mean of the measured values, rounded to one
decimal (`tasks.py` lines 181–184). -/
def dailyAverages (gd : List (ℤ × ℚ)) : List (ℤ × ℚ) :=
  (dedupKeys (gd.map (fun p => p.1))).map (fun d =>
    let vals := (gd.filter (fun p => p.1 == d)).map (fun p => p.2)
    (d, round1 (vals.sum / vals.length)))

/-- `forecast_dates`: the next seven days' `strftime` keys, as day
indices (`tasks.py` lines 189–192). -/
def forecastDates (now : ℤ) : List ℤ :=
  (List.range 7).map (fun i => dayOf (now + 1440 * ((i : ℤ) + 1)))

/-- `avg_glucose` of the fallback branches: mean of the daily averages
when any exist, `5.5` otherwise. -/
def fallbackAvg (davg : List (ℤ × ℚ)) : ℚ :=
  if davg.isEmpty then 11/2
  else ((davg.map (fun p => p.2)).sum) / davg.length

/-- No-match fallback (`tasks.py` lines 351–355): one fresh
`random.uniform(-0.5, 0.5)` draw per date, added to the average. -/
def jitteredForecast (avg : ℚ) (jitter : ℕ → ℚ) :
    ℕ → List String → List (String × PyVal)
  | _, [] => []
  | i, k :: t => (k, .num (round1 (avg + jitter i))) :: jitteredForecast avg jitter (i + 1) t

/-- Parse-error fallback (`tasks.py` lines 368–369): the plain average,
rounded, for every date — no jitter draw. -/
def plainForecast (avg : ℚ) (keys : List String) : List (String × PyVal) :=
  keys.map (fun k => (k, .num (round1 avg)))

/-- Steps 9 of `get_comprehensive_analysis` (`tasks.py` lines 309–378):
regex extraction, JSON parse and the two fallback branches.  Returns
`(forecast_data, analysis_text)`. -/
def extractForecast (full : String) (davg : List (ℤ × ℚ)) (dateKeys : List String)
    (jitter : ℕ → ℚ) : List (String × PyVal) × String :=
  match findJsonMatch full with
  | some m =>
    match parseJson (pyStrip m.jsonText) with
    | some obj => (obj, pyStrip (pyReplace full m.group0 ""))
    | none => (plainForecast (fallbackAvg davg) dateKeys, full)
  | none => (jitteredForecast (fallbackAvg davg) jitter 0 dateKeys, full)

/-- Step 10 (`tasks.py` lines 383–395): one validated entry per requested
date — the parsed value rounded when it is numeric and inside `[3, 15]`,
the sentinel `5.5` when it is missing, non-numeric or out of range. -/
def validateOne (v : Option PyVal) : PyVal :=
  match v with
  | some val =>
    if pyIsNumber val ∧ 3 ≤ pyNumVal val ∧ pyNumVal val ≤ 15 then
      .num (round1 (pyNumVal val))
    else .num (11/2)
  | none => .num (11/2)

/-- The templated insufficient-data message (`tasks.py` lines 149–156). -/
def insufficientAnalysisText : String :=
  "❌ Недостаточно данных за последнюю неделю для анализа.\n\n" ++
  "Для получения персонализированных рекомендаций и прогноза добавьте:\n" ++
  "• Измерения уровня глюкозы\n" ++
  "• События (приёмы пищи, физическая активность)\n" ++
  "• Информацию о принятых лекарствах\n" ++
  "• Заметки о стрессе и самочувствии"

/-- The templated outer-handler message (`tasks.py` lines 423–432); the
interpolated `type(e).__name__` / `str(e)` pair is carried as one detail
string. -/
def errorAnalysisText (detail : String) : String :=
  "❌ Произошла ошибка при анализе данных.\n\n" ++
  "Возможные причины:\n" ++
  "• Проблемы с подключением к OpenAI\n" ++
  "• Некорректные данные в базе\n" ++
  "• Технические неполадки\n\n" ++
  detail ++ "\n\n" ++
  "Попробуйте позже или обратитесь в поддержку."

/-- The dictionary returned by `get_comprehensive_analysis`. -/
structure AnalysisResult where
  analysis : String
  chart_data : List (ℤ × PyVal)
deriving DecidableEq, Repr

/-- `get_comprehensive_analysis` (`authapp/tasks.py` lines 40–434).

Inputs are one employee's records, the outcome of the OpenAI call
(`.error` = the call raised, routing to the outer `except`), and the
`random.uniform` stream.  The second component of the result records
whether the external model client was consulted. -/
def get_comprehensive_analysis (now : ℤ)
    (glucose : List GlucoseMeasurement) (events : List Event)
    (_meds : List Medication) (_stress : List StressNote)
    (modelResp : Except String String) (jitter : ℕ → ℚ) :
    AnalysisResult × Bool :=
  let glucose_data := glucoseData now glucose
  let events_f := eventsInWindow now events
  if glucose_data.isEmpty && events_f.isEmpty then
    ({ analysis := insufficientAnalysisText
       chart_data := (forecastDates now).map (fun d => (d, PyVal.null)) }, false)
  else
    match modelResp with
    | .error detail =>
      ({ analysis := errorAnalysisText detail
         chart_data := (forecastDates now).map (fun d => (d, PyVal.num (11/2))) }, true)
    | .ok raw =>
      let full := pyStrip raw
      let davg := dailyAverages glucose_data
      let dates := forecastDates now
      let (fdata, analysis_text) := extractForecast full davg (dates.map dayStr) jitter
      ({ analysis := analysis_text
         chart_data := dates.map (fun d => (d, validateOne (lookupStr fdata (dayStr d)))) },
       true)

/-- `HealthRecommendationView.get` (`authapp/views.py` lines 61–81): 404
without an employee profile, otherwise a 200 response carrying the
analysis payload (the view's own `except` is unreachable: the task
function absorbs every failure internally). -/
def HealthRecommendationView_get (hasEmployee : Bool) (now : ℤ)
    (glucose : List GlucoseMeasurement) (events : List Event)
    (meds : List Medication) (stress : List StressNote)
    (modelResp : Except String String) (jitter : ℕ → ℚ) :
    ℕ × Option AnalysisResult :=
  if hasEmployee then
    (200, some (get_comprehensive_analysis now glucose events meds stress modelResp jitter).1)
  else (404, none)

/-! ## Telegram auth codes (`authapp/models.py`, `authapp/views.py`) -/

/-- A `TelegramAuthCode` row (`code` carries a `unique=True` constraint;
`created_at` is in the same minute scale as every other timestamp). -/
structure TelegramAuthCode where
  user : ℕ
  code : String
  created_at : ℤ
  is_used : Bool
deriving DecidableEq, Repr

/-- `TelegramAuthCode.verify_code` (`authapp/models.py` lines 86–100) over
a database state: look the code up, drop it (returning `None`) when it is
older than 30 minutes, otherwise delete the row and return its user.
`record.delete()` removes the row found by `objects.get`; under the
`unique=True` constraint that is the first (and only) row with this code. -/
def verify_code (now : ℤ) (db : List TelegramAuthCode) (code : String) :
    Option ℕ × List TelegramAuthCode :=
  match db.find? (fun r => r.code == code) with
  | none => (none, db)
  | some r =>
    if 30 < now - r.created_at then (none, db.eraseP (fun x => x.code == code))
    else (some r.user, db.eraseP (fun x => x.code == code))

/-- Python truthiness of the `request.data.get(...)` results (`None` and
the empty string are falsy). -/
def optStrTruthy : Option String → Bool
  | none => false
  | some s => !(s == "")

/-- `ConfirmTelegramCodeView.post` (`authapp/views.py` lines 286–313):
HTTP status and resulting database state (the Telegram-id binding and
token minting on success do not touch the auth-code table). -/
def ConfirmTelegramCodeView_post (now : ℤ) (db : List TelegramAuthCode)
    (code telegram_id : Option String) : ℕ × List TelegramAuthCode :=
  if !(optStrTruthy code) || !(optStrTruthy telegram_id) then (400, db)
  else
    match code with
    | some c =>
      match verify_code now db c with
      | (none, db2) => (400, db2)
      | (some _, db2) => (200, db2)
    | none => (400, db)

/-! ## Diary write-time invariants (`diary/models.py`, `diary/serializers.py`) -/

/-- `Event.save` (`diary/models.py` lines 54–58).  The guard is Python
truthiness: `not self.end_time` holds exactly for `None` (a `datetime` is
always truthy) and `self.duration` holds for a present *non-zero*
duration. -/
def Event_save (e : Event) : Event :=
  match e.end_time, e.duration with
  | none, some d => if d == 0 then e else { e with end_time := some (e.start_time + d) }
  | _, _ => e

/-- A `MealPhoto` row; `meal` is the nullable foreign key to `Event`,
kept as the referenced row id so that later updates of the event row
stay visible through the reference. -/
structure MealPhoto where
  meal : Option ℕ
deriving DecidableEq, Repr

/-- Row lookup in the event table (rows keyed by primary key). -/
def lookupEvent (tbl : List (ℕ × Event)) (eid : ℕ) : Option Event :=
  (tbl.find? (fun q => q.1 == eid)).map (fun q => q.2)

/-- The diary state the meal-photo invariant ranges over: the event
table and the photo table. -/
structure DiaryDb where
  events : List (ℕ × Event)
  photos : List MealPhoto
deriving DecidableEq, Repr

/-- `MealPhotoSerializer.validate_meal` (`diary/serializers.py` lines
17–20): a `ValidationError` for any event that is not meal-typed (the
serializer field hands the resolved `Event` instance to the hook). -/
def validate_meal (value : Event) : Except String Event :=
  if !(value.type == "meal") then
    .error "Фото можно привязывать только к событию типа meal"
  else .ok value

/-- `MealPhoto.save` (`diary/models.py` lines 124–128) against the event
table: `ValueError` when the resolved `self.meal` is not meal-typed,
otherwise the row is written.  (An unresolvable id cannot be stored
under the foreign-key constraint; such a reference checks nothing and
the stored invariant is vacuous about it.) -/
def MealPhoto_save (events : List (ℕ × Event)) (p : MealPhoto) :
    Except String MealPhoto :=
  match p.meal with
  | some eid =>
    match lookupEvent events eid with
    | some ev =>
      if !(ev.type == "meal") then
        .error "Фото можно привязывать только к событию типа meal"
      else .ok p
    | none => .ok p
  | none => .ok p

/-- One write against the meal-photo table: the row is inserted exactly
when `MealPhoto.save` does not raise. -/
def photoCreate (db : DiaryDb) (p : MealPhoto) : DiaryDb :=
  match MealPhoto_save db.events p with
  | .ok _ => { db with photos := p :: db.photos }
  | .error _ => db

/-- An `EventViewSet` update (`diary/views.py` lines 116–121: a
`ModelViewSet` on the default router, so PATCH/PUT are routed, and
`EventSerializer` leaves `type` writable): the row's type is replaced
and `Event.save` runs — no guard consults the photo table. -/
def eventUpdateType (tbl : List (ℕ × Event)) (eid : ℕ) (ty : String) :
    List (ℕ × Event) :=
  tbl.map (fun q => if q.1 == eid then (q.1, Event_save { q.2 with type := ty }) else q)

/-- The stored invariant claimed for the meal-photo table: every stored
photo whose reference resolves points at a meal-typed event. -/
def PhotoInv (db : DiaryDb) : Prop :=
  ∀ p ∈ db.photos, ∀ eid, p.meal = some eid →
    ∀ ev, lookupEvent db.events eid = some ev → ev.type = "meal"

/-! ## Shared lemmas about the pipeline -/

/-- A rational with at most one decimal place. -/
def isTenth (q : ℚ) : Prop := ∃ z : ℤ, q = (z : ℚ) / 10

theorem round1_isTenth (q : ℚ) : isTenth (round1 q) :=
  ⟨⌊10 * q + 1/2⌋, round1_eq q⟩

theorem sentinel_isTenth : isTenth (11/2 : ℚ) := ⟨55, by norm_num⟩

theorem round1_lower {q : ℚ} (h : 3 ≤ q) : 3 ≤ round1 q := by
  rw [round1_eq]
  have h30 : (30 : ℤ) ≤ ⌊10 * q + 1/2⌋ := by
    apply Int.le_floor.mpr
    push_cast
    linarith
  have h30q : (30 : ℚ) ≤ ((⌊10 * q + 1/2⌋ : ℤ) : ℚ) := by exact_mod_cast h30
  linarith

theorem round1_upper {q : ℚ} (h : q ≤ 15) : round1 q ≤ 15 := by
  rw [round1_eq]
  have : ⌊10 * q + 1/2⌋ ≤ 150 := by
    have h1 : ⌊10 * q + 1/2⌋ < 151 := by
      rw [Int.floor_lt]
      push_cast
      linarith
    omega
  have h2 : ((⌊10 * q + 1/2⌋ : ℤ) : ℚ) ≤ 150 := by exact_mod_cast this
  linarith

/-- Every validated entry is a number inside `[3, 15]` with one decimal. -/
theorem validateOne_spec (v : Option PyVal) :
    ∃ q : ℚ, validateOne v = .num q ∧ 3 ≤ q ∧ q ≤ 15 ∧ isTenth q := by
  match v with
  | none => exact ⟨11/2, rfl, by norm_num, by norm_num, sentinel_isTenth⟩
  | some val =>
    by_cases h : (pyIsNumber val ∧ 3 ≤ pyNumVal val ∧ pyNumVal val ≤ 15)
    · refine ⟨round1 (pyNumVal val), ?_, round1_lower h.2.1, round1_upper h.2.2,
        round1_isTenth _⟩
      simp only [validateOne, if_pos h]
    · refine ⟨11/2, ?_, by norm_num, by norm_num, sentinel_isTenth⟩
      simp only [validateOne, if_neg h]

/-- A missing, non-numeric or out-of-range entry validates to the
sentinel `5.5`. -/
theorem validateOne_bad (v : Option PyVal)
    (h : v = none ∨ ∃ pv, v = some pv ∧
      (pyIsNumber pv = false ∨ pyNumVal pv < 3 ∨ 15 < pyNumVal pv)) :
    validateOne v = .num (11/2) := by
  rcases h with h | ⟨pv, rfl, hbad⟩
  · rw [h]; rfl
  · rw [validateOne, if_neg]
    rintro ⟨ha, hb, hc⟩
    rcases hbad with hb' | hb' | hb'
    · rw [ha] at hb'; cases hb'
    · linarith
    · linarith

/-- `forecastDates` spelled out: the seven days after `now`'s day. -/
theorem forecastDates_eq (now : ℤ) :
    forecastDates now = [dayOf now + 1, dayOf now + 2, dayOf now + 3, dayOf now + 4,
      dayOf now + 5, dayOf now + 6, dayOf now + 7] := by
  have h0 : List.range 7 = [0, 1, 2, 3, 4, 5, 6] := rfl
  rw [forecastDates, h0]
  simp only [List.map, dayOf_shift]
  norm_num

theorem forecastDates_nodup (now : ℤ) : (forecastDates now).Nodup := by
  rw [forecastDates_eq]
  simp

/-- The three extraction outcomes, as rewriting equations. -/
theorem extractForecast_parse_ok {full : String} {m : ReMatch}
    {obj : List (String × PyVal)} (davg : List (ℤ × ℚ)) (keys : List String)
    (jitter : ℕ → ℚ) (h1 : findJsonMatch full = some m)
    (h2 : parseJson (pyStrip m.jsonText) = some obj) :
    extractForecast full davg keys jitter = (obj, pyStrip (pyReplace full m.group0 "")) := by
  simp only [extractForecast, h1, h2]

theorem extractForecast_parse_fail {full : String} {m : ReMatch}
    (davg : List (ℤ × ℚ)) (keys : List String) (jitter : ℕ → ℚ)
    (h1 : findJsonMatch full = some m)
    (h2 : parseJson (pyStrip m.jsonText) = none) :
    extractForecast full davg keys jitter = (plainForecast (fallbackAvg davg) keys, full) := by
  simp only [extractForecast, h1, h2]

theorem extractForecast_nomatch {full : String} (davg : List (ℤ × ℚ))
    (keys : List String) (jitter : ℕ → ℚ) (h1 : findJsonMatch full = none) :
    extractForecast full davg keys jitter =
      (jitteredForecast (fallbackAvg davg) jitter 0 keys, full) := by
  rw [extractForecast, h1]

/-- The pattern loop resolves to whichever pattern matches first. -/
theorem findJsonMatch_p1 {s : String} {g0 g1 : List Char}
    (h : searchP1 s = some (g0, g1)) : findJsonMatch s = some ⟨⟨g0⟩, some ⟨g1⟩⟩ := by
  rw [findJsonMatch, h]

theorem findJsonMatch_p2 {s : String} {g0 g1 : List Char}
    (h1 : searchP1 s = none) (h2 : searchP2 s = some (g0, g1)) :
    findJsonMatch s = some ⟨⟨g0⟩, some ⟨g1⟩⟩ := by
  rw [findJsonMatch, h1, h2]

theorem findJsonMatch_p3 {s : String} {g0 : List Char}
    (h1 : searchP1 s = none) (h2 : searchP2 s = none) (h3 : searchP3 s = some g0) :
    findJsonMatch s = some ⟨⟨g0⟩, none⟩ := by
  rw [findJsonMatch, h1, h2, h3]

theorem findJsonMatch_nomatch {s : String} (h1 : searchP1 s = none)
    (h2 : searchP2 s = none) (h3 : searchP3 s = none) : findJsonMatch s = none := by
  rw [findJsonMatch, h1, h2, h3]

/-- `glucose_data` is empty exactly when the filtered queryset is. -/
theorem glucoseData_empty_iff (now : ℤ) (gs : List GlucoseMeasurement) :
    (glucoseData now gs).isEmpty = (glucoseInWindow now gs).isEmpty := by
  rw [glucoseData]
  rcases glucoseInWindow now gs with _ | ⟨a, t⟩ <;> rfl

/-- Abbreviation for the hypothesis that the 7-day window holds data. -/
def windowHasData (now : ℤ) (glucose : List GlucoseMeasurement)
    (events : List Event) : Prop :=
  ¬(glucoseInWindow now glucose = [] ∧ eventsInWindow now events = [])

instance (now : ℤ) (glucose : List GlucoseMeasurement) (events : List Event) :
    Decidable (windowHasData now glucose events) := by
  unfold windowHasData
  infer_instance

theorem gca_guard_false {now : ℤ} {glucose : List GlucoseMeasurement}
    {events : List Event} (h : windowHasData now glucose events) :
    ((glucoseData now glucose).isEmpty && (eventsInWindow now events).isEmpty) = false := by
  rw [glucoseData_empty_iff]
  by_contra hc
  rw [Bool.not_eq_false, Bool.and_eq_true, List.isEmpty_iff, List.isEmpty_iff] at hc
  exact h hc

theorem gca_guard_true {now : ℤ} {glucose : List GlucoseMeasurement}
    {events : List Event} (h : ¬windowHasData now glucose events) :
    ((glucoseData now glucose).isEmpty && (eventsInWindow now events).isEmpty) = true := by
  rw [windowHasData, not_not] at h
  rw [glucoseData_empty_iff, Bool.and_eq_true, List.isEmpty_iff, List.isEmpty_iff]
  exact h

/-- The successful-call path of `get_comprehensive_analysis`, as one
rewriting equation. -/
theorem gca_ok_eq (now : ℤ) (glucose : List GlucoseMeasurement)
    (events : List Event) (meds : List Medication) (stress : List StressNote)
    (raw : String) (jitter : ℕ → ℚ) (h : windowHasData now glucose events) :
    get_comprehensive_analysis now glucose events meds stress (.ok raw) jitter =
      ({ analysis := (extractForecast (pyStrip raw) (dailyAverages (glucoseData now glucose))
            ((forecastDates now).map dayStr) jitter).2
         chart_data := (forecastDates now).map (fun d => (d, validateOne
            (lookupStr (extractForecast (pyStrip raw) (dailyAverages (glucoseData now glucose))
              ((forecastDates now).map dayStr) jitter).1 (dayStr d)))) }, true) := by
  rw [get_comprehensive_analysis]
  rw [gca_guard_false h]
  rfl

/-- The insufficient-data path, for any model outcome. -/
theorem gca_insufficient_eq (now : ℤ) (glucose : List GlucoseMeasurement)
    (events : List Event) (meds : List Medication) (stress : List StressNote)
    (modelResp : Except String String) (jitter : ℕ → ℚ)
    (h : ¬windowHasData now glucose events) :
    get_comprehensive_analysis now glucose events meds stress modelResp jitter =
      ({ analysis := insufficientAnalysisText
         chart_data := (forecastDates now).map (fun d => (d, PyVal.null)) }, false) := by
  simp only [get_comprehensive_analysis.eq_def, gca_guard_true h]
  rfl

/-- The outer-`except` path: the model call raised. -/
theorem gca_error_eq (now : ℤ) (glucose : List GlucoseMeasurement)
    (events : List Event) (meds : List Medication) (stress : List StressNote)
    (detail : String) (jitter : ℕ → ℚ) (h : windowHasData now glucose events) :
    get_comprehensive_analysis now glucose events meds stress (.error detail) jitter =
      ({ analysis := errorAnalysisText detail
         chart_data := (forecastDates now).map (fun d => (d, PyVal.num (11/2))) }, true) := by
  rw [get_comprehensive_analysis]
  rw [gca_guard_false h]
  rfl

/-! ## The verified claims -/

/-- C1: on every run of `get_comprehensive_analysis` that reaches the
validation step (the window holds data and the model call returned), the
returned `chart_data` has exactly one entry per requested forecast date
(its key list is exactly the seven pairwise-distinct dates), every entry
is a number within `[3, 15]` with one decimal place, and every date whose
extracted value is missing, non-numeric or out of `[3, 15]` is mapped to
the sentinel `5.5` — not to a nearest bound. -/
theorem claim_c1 (now : ℤ) (glucose : List GlucoseMeasurement) (events : List Event)
    (meds : List Medication) (stress : List StressNote) (raw : String) (jitter : ℕ → ℚ)
    (h : windowHasData now glucose events) :
    ((get_comprehensive_analysis now glucose events meds stress (.ok raw) jitter).1.chart_data.map
        Prod.fst = forecastDates now) ∧
    (forecastDates now).Nodup ∧
    (∀ p ∈ (get_comprehensive_analysis now glucose events meds stress (.ok raw) jitter).1.chart_data,
      ∃ q : ℚ, p.2 = PyVal.num q ∧ 3 ≤ q ∧ q ≤ 15 ∧ isTenth q) ∧
    (∀ d ∈ forecastDates now,
      (lookupStr (extractForecast (pyStrip raw) (dailyAverages (glucoseData now glucose))
          ((forecastDates now).map dayStr) jitter).1 (dayStr d) = none ∨
        (∃ pv, lookupStr (extractForecast (pyStrip raw) (dailyAverages (glucoseData now glucose))
          ((forecastDates now).map dayStr) jitter).1 (dayStr d) = some pv ∧
          (pyIsNumber pv = false ∨ pyNumVal pv < 3 ∨ 15 < pyNumVal pv))) →
      (d, PyVal.num (11/2)) ∈
        (get_comprehensive_analysis now glucose events meds stress (.ok raw) jitter).1.chart_data) := by
  rw [gca_ok_eq now glucose events meds stress raw jitter h]
  refine ⟨?_, forecastDates_nodup now, ?_, ?_⟩
  · simp [List.map_map, Function.comp_def]
  · intro p hp
    rw [List.mem_map] at hp
    obtain ⟨d, _, rfl⟩ := hp
    exact validateOne_spec _
  · intro d hd hbad
    refine List.mem_map.mpr ⟨d, hd, ?_⟩
    rw [validateOne_bad _ hbad]

/-- Closed instance of C1 at a concrete run. -/
theorem claim_c1_witness :
    windowHasData 0 [⟨5, 0⟩] [] ∧
    (((get_comprehensive_analysis 0 [⟨5, 0⟩] [] [] [] (.ok "x") (fun _ => 0)).1.chart_data.map
        Prod.fst = forecastDates 0) ∧
    (forecastDates 0).Nodup ∧
    (∀ p ∈ (get_comprehensive_analysis 0 [⟨5, 0⟩] [] [] [] (.ok "x") (fun _ => 0)).1.chart_data,
      ∃ q : ℚ, p.2 = PyVal.num q ∧ 3 ≤ q ∧ q ≤ 15 ∧ isTenth q) ∧
    (∀ d ∈ forecastDates 0,
      (lookupStr (extractForecast (pyStrip "x") (dailyAverages (glucoseData 0 [⟨5, 0⟩]))
          ((forecastDates 0).map dayStr) (fun _ => 0)).1 (dayStr d) = none ∨
        (∃ pv, lookupStr (extractForecast (pyStrip "x") (dailyAverages (glucoseData 0 [⟨5, 0⟩]))
          ((forecastDates 0).map dayStr) (fun _ => 0)).1 (dayStr d) = some pv ∧
          (pyIsNumber pv = false ∨ pyNumVal pv < 3 ∨ 15 < pyNumVal pv))) →
      (d, PyVal.num (11/2)) ∈
        (get_comprehensive_analysis 0 [⟨5, 0⟩] [] [] [] (.ok "x") (fun _ => 0)).1.chart_data)) :=
  ⟨by decide, claim_c1 0 [⟨5, 0⟩] [] [] [] "x" (fun _ => 0) (by decide)⟩

/-- C3: with no glucose measurement and no event inside the trailing
7-day window, `get_comprehensive_analysis` returns the templated
insufficient-data analysis without consulting the external model client
(`false` flag), and the whole result is independent of the medication and
stress records, the model outcome and the random stream. -/
theorem claim_c3 (now : ℤ) (glucose : List GlucoseMeasurement) (events : List Event)
    (meds : List Medication) (stress : List StressNote)
    (modelResp : Except String String) (jitter : ℕ → ℚ)
    (h : glucoseInWindow now glucose = [] ∧ eventsInWindow now events = []) :
    (get_comprehensive_analysis now glucose events meds stress modelResp jitter).2 = false ∧
    (get_comprehensive_analysis now glucose events meds stress modelResp jitter).1.analysis =
      insufficientAnalysisText ∧
    (∀ (meds' : List Medication) (stress' : List StressNote)
      (modelResp' : Except String String) (jitter' : ℕ → ℚ),
      get_comprehensive_analysis now glucose events meds' stress' modelResp' jitter' =
        get_comprehensive_analysis now glucose events meds stress modelResp jitter) := by
  have hw : ¬windowHasData now glucose events := fun hw => hw h
  rw [gca_insufficient_eq now glucose events meds stress modelResp jitter hw]
  refine ⟨rfl, rfl, ?_⟩
  intro meds' stress' modelResp' jitter'
  rw [gca_insufficient_eq now glucose events meds' stress' modelResp' jitter' hw]

/-- Closed instance of C3: empty window but present medication and
stress records. -/
theorem claim_c3_witness :
    (glucoseInWindow 0 [] = [] ∧ eventsInWindow 0 [] = []) ∧
    ((get_comprehensive_analysis 0 [] [] [⟨0⟩] [⟨0⟩] (.ok "y") (fun _ => 0)).2 = false ∧
    (get_comprehensive_analysis 0 [] [] [⟨0⟩] [⟨0⟩] (.ok "y") (fun _ => 0)).1.analysis =
      insufficientAnalysisText ∧
    (∀ (meds' : List Medication) (stress' : List StressNote)
      (modelResp' : Except String String) (jitter' : ℕ → ℚ),
      get_comprehensive_analysis 0 [] [] meds' stress' modelResp' jitter' =
        get_comprehensive_analysis 0 [] [] [⟨0⟩] [⟨0⟩] (.ok "y") (fun _ => 0))) :=
  ⟨by decide, claim_c3 0 [] [] [⟨0⟩] [⟨0⟩] (.ok "y") (fun _ => 0) (by decide)⟩

/-- C10: on the insufficient-data short circuit the chart still lists all
seven requested dates, but maps every one of them to `None` — no entry is
numeric, so in particular none carries the `5.5` sentinel. -/
theorem claim_c10 (now : ℤ) (glucose : List GlucoseMeasurement) (events : List Event)
    (meds : List Medication) (stress : List StressNote)
    (modelResp : Except String String) (jitter : ℕ → ℚ)
    (h : glucoseInWindow now glucose = [] ∧ eventsInWindow now events = []) :
    ((get_comprehensive_analysis now glucose events meds stress modelResp jitter).1.chart_data.map
        Prod.fst = forecastDates now) ∧
    (∀ p ∈ (get_comprehensive_analysis now glucose events meds stress modelResp jitter).1.chart_data,
      p.2 = PyVal.null) ∧
    (∀ p ∈ (get_comprehensive_analysis now glucose events meds stress modelResp jitter).1.chart_data,
      ∀ q : ℚ, p.2 ≠ PyVal.num q) := by
  have hw : ¬windowHasData now glucose events := fun hw => hw h
  rw [gca_insufficient_eq now glucose events meds stress modelResp jitter hw]
  refine ⟨by simp [List.map_map, Function.comp_def], ?_, ?_⟩
  · intro p hp
    rw [List.mem_map] at hp
    obtain ⟨d, _, rfl⟩ := hp
    rfl
  · intro p hp q
    rw [List.mem_map] at hp
    obtain ⟨d, _, rfl⟩ := hp
    exact fun hc => PyVal.noConfusion hc

/-- Closed instance of C10. -/
theorem claim_c10_witness :
    (glucoseInWindow 3000 [] = [] ∧ eventsInWindow 3000 [] = []) ∧
    (((get_comprehensive_analysis 3000 [] [] [] [] (.error "boom") (fun _ => 0)).1.chart_data.map
        Prod.fst = forecastDates 3000) ∧
    (∀ p ∈ (get_comprehensive_analysis 3000 [] [] [] [] (.error "boom") (fun _ => 0)).1.chart_data,
      p.2 = PyVal.null) ∧
    (∀ p ∈ (get_comprehensive_analysis 3000 [] [] [] [] (.error "boom") (fun _ => 0)).1.chart_data,
      ∀ q : ℚ, p.2 ≠ PyVal.num q)) :=
  ⟨by decide, claim_c10 3000 [] [] [] [] (.error "boom") (fun _ => 0) (by decide)⟩

/-- C4: when the model call raises on a run whose window holds data, the
outer handler converts the failure into the templated error message plus
a flat `5.5` forecast for all seven dates (a single pass — the model
outcome enters the pipeline exactly once, so nothing is retried), and the
HTTP recommendation endpoint still answers 200 with that fallback
payload. -/
theorem claim_c4 (now : ℤ) (glucose : List GlucoseMeasurement) (events : List Event)
    (meds : List Medication) (stress : List StressNote) (detail : String) (jitter : ℕ → ℚ)
    (h : windowHasData now glucose events) :
    (get_comprehensive_analysis now glucose events meds stress (.error detail) jitter).1.analysis =
      errorAnalysisText detail ∧
    (get_comprehensive_analysis now glucose events meds stress (.error detail) jitter).1.chart_data =
      (forecastDates now).map (fun d => (d, PyVal.num (11/2))) ∧
    HealthRecommendationView_get true now glucose events meds stress (.error detail) jitter =
      (200, some (get_comprehensive_analysis now glucose events meds stress
        (.error detail) jitter).1) := by
  have he := gca_error_eq now glucose events meds stress detail jitter h
  exact ⟨by rw [he], by rw [he], rfl⟩

/-- Closed instance of C4. -/
theorem claim_c4_witness :
    windowHasData 0 [⟨7, -100⟩] [] ∧
    ((get_comprehensive_analysis 0 [⟨7, -100⟩] [] [] [] (.error "APIError") (fun _ => 0)).1.analysis =
      errorAnalysisText "APIError" ∧
    (get_comprehensive_analysis 0 [⟨7, -100⟩] [] [] [] (.error "APIError") (fun _ => 0)).1.chart_data =
      (forecastDates 0).map (fun d => (d, PyVal.num (11/2))) ∧
    HealthRecommendationView_get true 0 [⟨7, -100⟩] [] [] [] (.error "APIError") (fun _ => 0) =
      (200, some (get_comprehensive_analysis 0 [⟨7, -100⟩] [] [] [] (.error "APIError")
        (fun _ => 0)).1)) :=
  ⟨by decide, claim_c4 0 [⟨7, -100⟩] [] [] [] "APIError" (fun _ => 0) (by decide)⟩

/-- A parsed numeric value inside `[3, 15]` survives validation as its
own rounding. -/
theorem validateOne_num {v : ℚ} (h3 : 3 ≤ v) (h15 : v ≤ 15) :
    validateOne (some (.num v)) = .num (round1 v) := by
  have hc : (pyIsNumber (PyVal.num v) ∧ 3 ≤ pyNumVal (PyVal.num v) ∧
      pyNumVal (PyVal.num v) ≤ 15) := ⟨rfl, h3, h15⟩
  rw [validateOne, if_pos hc]
  rfl

/-- C5: extraction tries exactly the three patterns in the fixed order —
fenced "json" block, fenced generic block, bare date-keyed object — and
for every response the first pattern with a match is the one used (a
pattern-1 match settles the outcome irrespective of patterns 2 and 3, and
so on down the chain); when a pattern matched, its brace group is handed
to the JSON parser and, on a successful parse, the parsed mapping is
returned with the matched text stripped out of the narrative. -/
theorem claim_c5 (s : String) :
    (∀ g0 g1, searchP1 s = some (g0, g1) → findJsonMatch s = some ⟨⟨g0⟩, some ⟨g1⟩⟩) ∧
    (searchP1 s = none → ∀ g0 g1, searchP2 s = some (g0, g1) →
      findJsonMatch s = some ⟨⟨g0⟩, some ⟨g1⟩⟩) ∧
    (searchP1 s = none → searchP2 s = none → ∀ g0, searchP3 s = some g0 →
      findJsonMatch s = some ⟨⟨g0⟩, none⟩) ∧
    (searchP1 s = none → searchP2 s = none → searchP3 s = none → findJsonMatch s = none) ∧
    (∀ (davg : List (ℤ × ℚ)) (keys : List String) (jitter : ℕ → ℚ)
      (m : ReMatch) (obj : List (String × PyVal)), findJsonMatch s = some m →
      parseJson (pyStrip m.jsonText) = some obj →
      extractForecast s davg keys jitter = (obj, pyStrip (pyReplace s m.group0 ""))) :=
  ⟨fun _ _ h => findJsonMatch_p1 h,
   fun h1 _ _ h2 => findJsonMatch_p2 h1 h2,
   fun h1 h2 _ h3 => findJsonMatch_p3 h1 h2 h3,
   fun h1 h2 h3 => findJsonMatch_nomatch h1 h2 h3,
   fun davg keys jitter _ _ h1 h2 => extractForecast_parse_ok davg keys jitter h1 h2⟩

/-- Closed instance of C5 on a response where pattern 1 and pattern 2
both have matches: pattern 1 wins; and a concrete parse-and-strip run. -/
theorem claim_c5_witness :
    (searchP1 "```json\x7bA: 1\x7d``` ``` \x7bB\x7d ```" =
      some ("```json\x7bA: 1\x7d```".data, "\x7bA: 1\x7d".data) ∧
     searchP2 "```json\x7bA: 1\x7d``` ``` \x7bB\x7d ```" =
      some ("``` \x7bB\x7d ```".data, "\x7bB\x7d".data) ∧
     findJsonMatch "```json\x7bA: 1\x7d``` ``` \x7bB\x7d ```" =
      some ⟨"```json\x7bA: 1\x7d```", some "\x7bA: 1\x7d"⟩) ∧
    (findJsonMatch "```json\x7b\"1\": 4.5\x7d```" =
      some ⟨"```json\x7b\"1\": 4.5\x7d```", some "\x7b\"1\": 4.5\x7d"⟩ ∧
     parseJson (pyStrip (ReMatch.jsonText
        ⟨"```json\x7b\"1\": 4.5\x7d```", some "\x7b\"1\": 4.5\x7d"⟩)) =
      some [("1", .num (9/2))] ∧
     extractForecast "```json\x7b\"1\": 4.5\x7d```" [] [] (fun _ => 0) =
      ([("1", .num (9/2))], pyStrip (pyReplace "```json\x7b\"1\": 4.5\x7d```"
        (ReMatch.group0 ⟨"```json\x7b\"1\": 4.5\x7d```", some "\x7b\"1\": 4.5\x7d"⟩) ""))) :=
  ⟨⟨by decide, by decide,
    (claim_c5 "```json\x7bA: 1\x7d``` ``` \x7bB\x7d ```").1
      "```json\x7bA: 1\x7d```".data "\x7bA: 1\x7d".data (by decide)⟩,
   ⟨by decide, by decide,
    (claim_c5 "```json\x7b\"1\": 4.5\x7d```").2.2.2.2 [] [] (fun _ => 0)
      ⟨"```json\x7b\"1\": 4.5\x7d```", some "\x7b\"1\": 4.5\x7d"⟩
      [("1", .num (9/2))] (by decide) (by decide)⟩⟩

/-- C6: if the (stripped) model response has a fenced JSON block match
whose brace group parses, then for every requested forecast date whose
parsed value is a number inside `[3, 15]`, the returned chart carries
exactly that value, only rounded to one decimal. -/
theorem claim_c6 (now : ℤ) (glucose : List GlucoseMeasurement) (events : List Event)
    (meds : List Medication) (stress : List StressNote) (raw : String) (jitter : ℕ → ℚ)
    (g0 g1 : List Char) (obj : List (String × PyVal)) (d : ℤ) (v : ℚ)
    (h : windowHasData now glucose events)
    (h1 : searchP1 (pyStrip raw) = some (g0, g1))
    (h2 : parseJson (pyStrip ⟨g1⟩) = some obj)
    (hd : d ∈ forecastDates now)
    (hv : lookupStr obj (dayStr d) = some (PyVal.num v))
    (h3 : 3 ≤ v) (h15 : v ≤ 15) :
    (d, PyVal.num (round1 v)) ∈
      (get_comprehensive_analysis now glucose events meds stress (.ok raw) jitter).1.chart_data := by
  rw [gca_ok_eq now glucose events meds stress raw jitter h]
  have hm := findJsonMatch_p1 h1
  have he := extractForecast_parse_ok (m := ⟨⟨g0⟩, some ⟨g1⟩⟩)
    (dailyAverages (glucoseData now glucose)) ((forecastDates now).map dayStr) jitter hm h2
  rw [he]
  refine List.mem_map.mpr ⟨d, hd, ?_⟩
  rw [hv, validateOne_num h3 h15]

/-- Closed instance of C6: the model's fenced value `4.2` for the first
forecast day is returned as `4.2`. -/
theorem claim_c6_witness :
    windowHasData 0 [⟨5, 0⟩] [] ∧
    searchP1 (pyStrip "```json\x7b\"1\": 4.2\x7d```") =
      some ("```json\x7b\"1\": 4.2\x7d```".data, "\x7b\"1\": 4.2\x7d".data) ∧
    parseJson (pyStrip "\x7b\"1\": 4.2\x7d") = some [("1", .num (21/5))] ∧
    (1 : ℤ) ∈ forecastDates 0 ∧
    lookupStr [("1", PyVal.num (21/5))] (dayStr 1) = some (PyVal.num (21/5)) ∧
    ((1 : ℤ), PyVal.num (round1 (21/5))) ∈
      (get_comprehensive_analysis 0 [⟨5, 0⟩] [] [] []
        (.ok "```json\x7b\"1\": 4.2\x7d```") (fun _ => 0)).1.chart_data :=
  ⟨by decide, by decide, by decide, by decide, by decide,
   claim_c6 0 [⟨5, 0⟩] [] [] [] "```json\x7b\"1\": 4.2\x7d```" (fun _ => 0)
     "```json\x7b\"1\": 4.2\x7d```".data "\x7b\"1\": 4.2\x7d".data
     [("1", .num (21/5))] 1 (21/5) (by decide) (by decide) (by decide) (by decide)
     (by decide) (by norm_num) (by norm_num)⟩

/-- Key list of the jittered fallback. -/
theorem jitteredForecast_map_fst (avg : ℚ) (jitter : ℕ → ℚ) :
    ∀ (i0 : ℕ) (keys : List String),
      (jitteredForecast avg jitter i0 keys).map Prod.fst = keys := by
  intro i0 keys
  induction keys generalizing i0 with
  | nil => rfl
  | cons k t ih => simp [jitteredForecast, ih]

/-- Entry `i` of the jittered fallback pairs key `i` with the `i`-th
pending random draw. -/
theorem jitteredForecast_getElem (avg : ℚ) (jitter : ℕ → ℚ) :
    ∀ (i0 : ℕ) (keys : List String) (i : ℕ),
      (jitteredForecast avg jitter i0 keys)[i]? =
        (keys[i]?).map (fun k => (k, PyVal.num (round1 (avg + jitter (i0 + i))))) := by
  intro i0 keys
  induction keys generalizing i0 with
  | nil => intro i; rfl
  | cons k t ih =>
    intro i
    match i with
    | 0 => simp [jitteredForecast]
    | i + 1 =>
      have h : i0 + (i + 1) = (i0 + 1) + i := by omega
      simp [jitteredForecast, ih (i0 + 1) i, h]

/-- C2 counterexample: a run in which a pattern matches, parsing the
matched text raises, one historical daily average (5.0) exists, and
every pending `random.uniform` draw equals `0.4`.  The claim predicts
`round(5.0 + 0.4, 1) = 5.4` for every date; the code consumes no draw at
all and produces the flat `5.0`. -/
theorem claim_c2_counterexample :
    (findJsonMatch (pyStrip "```json\x7bx\x7d```")).isSome = true ∧
    parseJson (pyStrip (ReMatch.jsonText ⟨"```json\x7bx\x7d```", some "\x7bx\x7d"⟩)) = none ∧
    (get_comprehensive_analysis 0 [⟨5, 0⟩] [] [] [] (.ok "```json\x7bx\x7d```")
      (fun _ => 2/5)).1.chart_data = (forecastDates 0).map (fun d => (d, PyVal.num 5)) ∧
    (extractForecast (pyStrip "```json\x7bx\x7d```")
      (dailyAverages (glucoseData 0 [⟨5, 0⟩])) ((forecastDates 0).map dayStr)
      (fun _ => 2/5)).1 = ((forecastDates 0).map dayStr).map
        (fun k => (k, PyVal.num 5)) ∧
    round1 (fallbackAvg (dailyAverages (glucoseData 0 [⟨5, 0⟩])) + 2/5) = 27/5 ∧
    (5 : ℚ) ≠ 27/5 := by
  refine ⟨by decide, by decide, by decide, by decide, by decide, by decide⟩

/-- C2 as amended: when no regex pattern matches, the synthesized
forecast gives every date the historical average plus one fresh
`random.uniform(-0.5, 0.5)` draw (the `i`-th date consuming the `i`-th
draw); when parsing the matched text raises, every date receives the
plain rounded average with no jitter; the average defaults to `5.5` when
no historical daily averages exist; in both branches every date key is
present. -/
theorem claim_c2 (full : String) (davg : List (ℤ × ℚ)) (keys : List String)
    (jitter : ℕ → ℚ) :
    (findJsonMatch full = none →
      ((extractForecast full davg keys jitter).1.map Prod.fst = keys ∧
        ∀ i : ℕ, (extractForecast full davg keys jitter).1[i]? =
          (keys[i]?).map (fun k => (k, PyVal.num (round1 (fallbackAvg davg + jitter i)))))) ∧
    (∀ m : ReMatch, findJsonMatch full = some m → parseJson (pyStrip m.jsonText) = none →
      ((extractForecast full davg keys jitter).1.map Prod.fst = keys ∧
        ∀ i : ℕ, (extractForecast full davg keys jitter).1[i]? =
          (keys[i]?).map (fun k => (k, PyVal.num (round1 (fallbackAvg davg)))))) ∧
    (davg = [] → fallbackAvg davg = 11/2) := by
  refine ⟨?_, ?_, ?_⟩
  · intro h
    rw [extractForecast_nomatch davg keys jitter h]
    refine ⟨jitteredForecast_map_fst _ _ _ _, ?_⟩
    intro i
    have := jitteredForecast_getElem (fallbackAvg davg) jitter 0 keys i
    simpa using this
  · intro m h1 h2
    rw [extractForecast_parse_fail davg keys jitter h1 h2]
    refine ⟨by simp [plainForecast, List.map_map, Function.comp_def], ?_⟩
    intro i
    simp [plainForecast]
  · intro h
    rw [h]
    rfl

/-- Closed instance of the amended C2, exercising both fallback branches
at concrete inputs. -/
theorem claim_c2_witness :
    (findJsonMatch "no block" = none ∧
      ((extractForecast "no block" [(0, 5)] ["1", "2"] (fun _ => 1/10)).1.map Prod.fst =
          ["1", "2"] ∧
        ∀ i : ℕ, (extractForecast "no block" [(0, 5)] ["1", "2"] (fun _ => 1/10)).1[i]? =
          ((["1", "2"] : List String)[i]?).map
            (fun k => (k, PyVal.num (round1 (fallbackAvg [(0, 5)] + 1/10)))))) ∧
    (findJsonMatch "```json\x7bx\x7d```" = some ⟨"```json\x7bx\x7d```", some "\x7bx\x7d"⟩ ∧
      parseJson (pyStrip (ReMatch.jsonText ⟨"```json\x7bx\x7d```", some "\x7bx\x7d"⟩)) = none ∧
      ((extractForecast "```json\x7bx\x7d```" [(0, 5)] ["1", "2"] (fun _ => 1/10)).1.map
          Prod.fst = ["1", "2"] ∧
        ∀ i : ℕ, (extractForecast "```json\x7bx\x7d```" [(0, 5)] ["1", "2"]
            (fun _ => 1/10)).1[i]? =
          ((["1", "2"] : List String)[i]?).map
            (fun k => (k, PyVal.num (round1 (fallbackAvg [(0, 5)])))))) :=
  ⟨⟨by decide, (claim_c2 "no block" [(0, 5)] ["1", "2"] (fun _ => 1/10)).1 (by decide)⟩,
   ⟨by decide, by decide,
    (claim_c2 "```json\x7bx\x7d```" [(0, 5)] ["1", "2"] (fun _ => 1/10)).2.1
      ⟨"```json\x7bx\x7d```", some "\x7bx\x7d"⟩ (by decide) (by decide)⟩⟩

/-- After erasing the (unique) record holding a code, no record with that
code remains. -/
theorem eraseP_code_gone (code : String) :
    ∀ (db : List TelegramAuthCode), (db.map TelegramAuthCode.code).Nodup →
      ∀ r, db.find? (fun x => x.code == code) = some r →
      (db.eraseP (fun x => x.code == code)).find? (fun x => x.code == code) = none := by
  intro db
  induction db with
  | nil => intro _ r hr; cases hr
  | cons a t ih =>
    intro hnd r hr
    rw [List.map_cons, List.nodup_cons] at hnd
    by_cases ha : (a.code == code) = true
    · simp only [List.eraseP_cons, ha, cond_true]
      rw [List.find?_eq_none]
      intro x hx hxc
      exact hnd.1 (List.mem_map.mpr ⟨x, hx, by rw [eq_of_beq hxc, eq_of_beq ha]⟩)
    · have hb : (a.code == code) = false := by simpa using ha
      simp only [List.eraseP_cons, hb, cond_false]
      simp only [List.find?, hb] at hr
      rw [List.find?_eq_none]
      intro x hx hxc
      rcases List.mem_cons.mp hx with hxa | hxe
      · rw [hxa] at hxc
        rw [hxc] at hb
        cases hb
      · have hnone := ih hnd.2 r hr
        rw [List.find?_eq_none] at hnone
        exact hnone x hxe hxc

/-- `verify_code` with an unknown code touches nothing. -/
theorem verify_code_miss {now : ℤ} {db : List TelegramAuthCode} {code : String}
    (h : db.find? (fun x => x.code == code) = none) :
    verify_code now db code = (none, db) := by
  rw [verify_code, h]

/-- C7: a `TelegramAuthCode` is consumable exactly once — when
`verify_code` succeeds (returns a user), the record is gone from the
resulting state, every later `verify_code` call with the same code (at
any time) returns `None`, and a second confirmation attempt through
`ConfirmTelegramCodeView` with that code gets the 400 error response. -/
theorem claim_c7 (now : ℤ) (db : List TelegramAuthCode) (code : String) (u : ℕ)
    (db2 : List TelegramAuthCode)
    (hnd : (db.map TelegramAuthCode.code).Nodup)
    (h : verify_code now db code = (some u, db2)) :
    db2.find? (fun x => x.code == code) = none ∧
    (∀ now2 : ℤ, (verify_code now2 db2 code).1 = none) ∧
    (∀ (now2 : ℤ) (tg : String),
      (ConfirmTelegramCodeView_post now2 db2 (some code) (some tg)).1 = 400) := by
  have hnone : db2.find? (fun x => x.code == code) = none := by
    rw [verify_code] at h
    cases hf : db.find? (fun x => x.code == code) with
    | none =>
      rw [hf] at h
      exact absurd (congrArg Prod.fst h) (by simp)
    | some r =>
      rw [hf] at h
      dsimp only at h
      by_cases ht : (30 : ℤ) < now - r.created_at
      · rw [if_pos ht] at h
        exact absurd (congrArg Prod.fst h) (by simp)
      · rw [if_neg ht] at h
        have h2 : db.eraseP (fun x => x.code == code) = db2 := congrArg Prod.snd h
        rw [← h2]
        exact eraseP_code_gone code db hnd r hf
  refine ⟨hnone, fun now2 => by rw [verify_code_miss hnone], ?_⟩
  intro now2 tg
  rw [ConfirmTelegramCodeView_post]
  by_cases hg : (!optStrTruthy (some code) || !optStrTruthy (some tg)) = true
  · rw [if_pos hg]
  · rw [if_neg hg]
    rw [verify_code_miss hnone]

/-- Closed instance of C7: one stored code, verified once. -/
theorem claim_c7_witness :
    (([⟨1, "ABC123", 0, false⟩] : List TelegramAuthCode).map
        TelegramAuthCode.code).Nodup ∧
    verify_code 5 [⟨1, "ABC123", 0, false⟩] "ABC123" = (some 1, []) ∧
    (([] : List TelegramAuthCode).find? (fun x => x.code == "ABC123") = none ∧
      (∀ now2 : ℤ, (verify_code now2 [] "ABC123").1 = none) ∧
      (∀ (now2 : ℤ) (tg : String),
        (ConfirmTelegramCodeView_post now2 [] (some "ABC123") (some tg)).1 = 400)) :=
  ⟨by decide, by decide,
   claim_c7 5 [⟨1, "ABC123", 0, false⟩] "ABC123" 1 [] (by decide) (by decide)⟩

/-- C8 counterexample: the claim's "no stored MealPhoto ever references
a non-meal Event" fails on a trace of two repository write operations.
A photo is attached to a meal-typed event — accepted by the write-time
check — and the event is then retyped to `"walk"` through the event
endpoint, which consults no photo: the stored photo now references a
non-meal event. -/
theorem claim_c8_counterexample :
    MealPhoto_save [(1, ⟨"meal", none, 0, none⟩)] ⟨some 1⟩ = .ok ⟨some 1⟩ ∧
    photoCreate ⟨[(1, ⟨"meal", none, 0, none⟩)], []⟩ ⟨some 1⟩ =
      ⟨[(1, ⟨"meal", none, 0, none⟩)], [⟨some 1⟩]⟩ ∧
    PhotoInv ⟨[(1, ⟨"meal", none, 0, none⟩)], [⟨some 1⟩]⟩ ∧
    eventUpdateType [(1, ⟨"meal", none, 0, none⟩)] 1 "walk" =
      [(1, ⟨"walk", none, 0, none⟩)] ∧
    ¬ PhotoInv ⟨[(1, ⟨"walk", none, 0, none⟩)], [⟨some 1⟩]⟩ := by
  refine ⟨rfl, by decide, ?_, by decide, ?_⟩
  · intro p hp eid hm ev hev
    rw [List.mem_singleton] at hp
    subst hp
    have heid : eid = 1 := (Option.some.inj hm).symm
    subst heid
    have hl : lookupEvent [(1, ⟨"meal", none, 0, none⟩)] 1 =
        some ⟨"meal", none, 0, none⟩ := rfl
    rw [hl] at hev
    rw [← Option.some.inj hev]
  · intro h
    have := h ⟨some 1⟩ (List.mem_singleton.mpr rfl) 1 rfl ⟨"walk", none, 0, none⟩ rfl
    exact absurd this (by decide)

/-- C8 as amended: any attempt to create a `MealPhoto` referencing an
`Event` stored with a non-meal type is rejected at write time — the
serializer raises a validation error, the model `save` raises and no row
is inserted — and meal-photo writes preserve the stored
only-meal-references invariant.  (The invariant is not maintained by the
system as a whole: per the counterexample, retyping a photographed meal
event through the event endpoint breaks it.) -/
theorem claim_c8 :
    (∀ ev : Event, ev.type ≠ "meal" → ∃ msg, validate_meal ev = .error msg) ∧
    (∀ (db : DiaryDb) (p : MealPhoto) (eid : ℕ) (ev : Event),
      p.meal = some eid → lookupEvent db.events eid = some ev → ev.type ≠ "meal" →
      (∃ msg, MealPhoto_save db.events p = .error msg) ∧ photoCreate db p = db) ∧
    (∀ (db : DiaryDb) (p : MealPhoto), PhotoInv db → PhotoInv (photoCreate db p)) := by
  refine ⟨?_, ?_, ?_⟩
  · intro ev h
    refine ⟨"Фото можно привязывать только к событию типа meal", ?_⟩
    rw [validate_meal, if_pos]
    simpa using h
  · intro db p eid ev hm hl h
    have hsave : MealPhoto_save db.events p =
        .error "Фото можно привязывать только к событию типа meal" := by
      rw [MealPhoto_save, hm]
      dsimp only
      rw [hl]
      dsimp only
      rw [if_pos]
      simpa using h
    exact ⟨⟨_, hsave⟩, by rw [photoCreate, hsave]⟩
  · intro db p hinv
    cases hs : MealPhoto_save db.events p with
    | error msg =>
      rw [photoCreate, hs]
      exact hinv
    | ok q =>
      rw [photoCreate, hs]
      dsimp only
      intro x hx eid hm ev hev
      rcases List.mem_cons.mp hx with hxp | hxd
      · subst hxp
        rw [MealPhoto_save, hm] at hs
        dsimp only at hs
        rw [hev] at hs
        dsimp only at hs
        by_cases hty : (ev.type == "meal") = true
        · exact eq_of_beq hty
        · rw [if_pos (by simpa using hty)] at hs
          cases hs
      · exact hinv x hxd eid hm ev hev

/-- Closed instance of the amended C8: rejection of a photo aimed at a
stored walk event, and a photo write preserving the invariant. -/
theorem claim_c8_witness :
    ((⟨"walk", none, 0, none⟩ : Event).type ≠ "meal" ∧
      (∃ msg, validate_meal ⟨"walk", none, 0, none⟩ = .error msg)) ∧
    ((⟨some 1⟩ : MealPhoto).meal = some 1 ∧
      lookupEvent [(1, ⟨"walk", none, 0, none⟩)] 1 = some ⟨"walk", none, 0, none⟩ ∧
      (∃ msg, MealPhoto_save [(1, ⟨"walk", none, 0, none⟩)] ⟨some 1⟩ = .error msg) ∧
      photoCreate ⟨[(1, ⟨"walk", none, 0, none⟩)], []⟩ ⟨some 1⟩ =
        ⟨[(1, ⟨"walk", none, 0, none⟩)], []⟩) ∧
    (PhotoInv ⟨[(1, ⟨"meal", none, 0, none⟩)], []⟩ ∧
      PhotoInv (photoCreate ⟨[(1, ⟨"meal", none, 0, none⟩)], []⟩ ⟨some 1⟩)) :=
  ⟨⟨by decide, claim_c8.1 ⟨"walk", none, 0, none⟩ (by decide)⟩,
   ⟨rfl, rfl,
    (claim_c8.2.1 ⟨[(1, ⟨"walk", none, 0, none⟩)], []⟩ ⟨some 1⟩ 1
      ⟨"walk", none, 0, none⟩ rfl rfl (by decide)).1,
    (claim_c8.2.1 ⟨[(1, ⟨"walk", none, 0, none⟩)], []⟩ ⟨some 1⟩ 1
      ⟨"walk", none, 0, none⟩ rfl rfl (by decide)).2⟩,
   ⟨fun x hx => absurd hx (List.not_mem_nil x),
    claim_c8.2.2 ⟨[(1, ⟨"meal", none, 0, none⟩)], []⟩ ⟨some 1⟩
      (fun x hx => absurd hx (List.not_mem_nil x))⟩⟩

/-- C9 counterexample: an event saved with no end time and the present
duration `0` keeps `end_time = None` — the `if not self.end_time and
self.duration` guard treats the present `0` as absent — while the claim
requires `end_time = start_time + 0 minutes`. -/
theorem claim_c9_counterexample :
    (⟨"sport", some 0, 100, none⟩ : Event).end_time = none ∧
    (⟨"sport", some 0, 100, none⟩ : Event).duration = some 0 ∧
    (Event_save ⟨"sport", some 0, 100, none⟩).end_time = none ∧
    (Event_save ⟨"sport", some 0, 100, none⟩).end_time ≠ some (100 + 0) := by
  refine ⟨rfl, rfl, rfl, by decide⟩

/-- C9 as amended: an event saved with an absent end time and a present
*non-zero* duration gets `end_time = start_time + duration` (minutes); an
event with an end time already set keeps it; the boundary case of a
present zero duration leaves the end time absent. -/
theorem claim_c9 :
    (∀ (e : Event) (d : ℤ), e.end_time = none → e.duration = some d → d ≠ 0 →
      (Event_save e).end_time = some (e.start_time + d)) ∧
    (∀ (e : Event) (t : ℤ), e.end_time = some t → (Event_save e).end_time = some t) ∧
    (∀ e : Event, e.end_time = none → e.duration = some 0 →
      (Event_save e).end_time = none) := by
  refine ⟨?_, ?_, ?_⟩
  · intro e d he hd hnz
    rw [Event_save, he, hd]
    dsimp only
    rw [if_neg (by simpa using hnz)]
  · intro e t he
    rw [Event_save, he]
    cases e.duration <;> exact he
  · intro e he hd
    rw [Event_save, he, hd]
    dsimp only
    have h00 : ((0 : ℤ) == 0) = true := rfl
    rw [if_pos h00]
    exact he

/-- Closed instance of the amended C9. -/
theorem claim_c9_witness :
    ((⟨"walk", some 30, 100, none⟩ : Event).end_time = none ∧
      (⟨"walk", some 30, 100, none⟩ : Event).duration = some 30 ∧ (30 : ℤ) ≠ 0 ∧
      (Event_save ⟨"walk", some 30, 100, none⟩).end_time = some (100 + 30)) ∧
    ((⟨"walk", some 30, 100, some 999⟩ : Event).end_time = some 999 ∧
      (Event_save ⟨"walk", some 30, 100, some 999⟩).end_time = some 999) :=
  ⟨⟨rfl, rfl, by decide,
    claim_c9.1 ⟨"walk", some 30, 100, none⟩ 30 rfl rfl (by decide)⟩,
   ⟨rfl, claim_c9.2.1 ⟨"walk", some 30, 100, some 999⟩ 999 rfl⟩⟩
